import Mathlib

/-!
Verification development for the nas-search indexing pipeline.

The pipeline's watcher (services/file-monitor/monitor.py), metadata
extractor (services/metadata-extractor/extractor.py) and thumbnail
generator (services/thumbnail-generator/generator.py) are shallowly
embedded below.  Pure path arithmetic, the Redis-backed state-store
discipline and the Solr skip-if-unchanged check are translated
function-by-function from the Python source; external collaborators
(the filesystem, the Solr HTTP endpoint, the metadata tools and the
renderer) are modelled as explicit environment parameters.  Times are
modelled in whole seconds.  String primitives are implemented over
character lists so that every definition evaluates by kernel reduction.
-/

set_option maxRecDepth 8000

/-! ## Character-list string primitives (models of Python str methods) -/

/-- Split a character list at every occurrence of the separator,
keeping empty pieces (Python str.split(sep) / splitOn). -/
def chSplit (sep : Char) (cs : List Char) : List (List Char) :=
  cs.foldr
    (fun c acc =>
      match acc with
      | cur :: rest => if c = sep then [] :: cur :: rest else (c :: cur) :: rest
      | [] => [[c]])
    [[]]

/-- String split on a single-character separator. -/
def strSplitOn (s : String) (sep : Char) : List String :=
  (chSplit sep s.data).map (fun l => String.mk l)

/-- ASCII whitespace test (enough for the paths handled here). -/
def chIsSpace (c : Char) : Bool :=
  c = ' ' || c = '\t' || c = '\n' || c = '\r'

/-- Python str.strip() (ASCII whitespace). -/
def strTrim (s : String) : String :=
  String.mk (((s.data.dropWhile chIsSpace).reverse.dropWhile chIsSpace).reverse)

/-- ASCII lowercase of one character (Python str.lower on ASCII). -/
def chLower (c : Char) : Char :=
  if 65 ≤ c.toNat ∧ c.toNat ≤ 90 then Char.ofNat (c.toNat + 32) else c

/-- Python str.lower() (ASCII range; file extensions are ASCII). -/
def strLower (s : String) : String :=
  String.mk (s.data.map chLower)

/-- Join strings with a separator (Python sep.join / "/" joining). -/
def strIntercalate (sep : String) : List String → String
  | [] => ""
  | [x] => x
  | x :: xs => x ++ sep ++ strIntercalate sep xs

/-- Does the first list begin with the second one? -/
def chIsPrefix : List Char → List Char → Bool
  | [], _ => true
  | _ :: _, [] => false
  | a :: as, b :: bs => a = b && chIsPrefix as bs

/-- Python s.endswith(t). -/
def strEndsWith (s t : String) : Bool :=
  chIsPrefix t.data.reverse s.data.reverse

/-- Parse a nonempty all-digit character list as a Nat. -/
def chToNat : List Char → Option Nat
  | [] => none
  | cs =>
    if cs.all (fun c => 48 ≤ c.toNat ∧ c.toNat ≤ 57) then
      some (cs.foldl (fun acc c => acc * 10 + (c.toNat - 48)) 0)
    else none

/-- Lexicographic ≤ on code-point lists (Python string comparison). -/
def lexLeCP : List Nat → List Nat → Bool
  | [], _ => true
  | _ :: _, [] => false
  | a :: as, b :: bs =>
    if a < b then true else if b < a then false else lexLeCP as bs

/-- Python string ≤ (code-point lexicographic). -/
def pyStrLe (a b : String) : Bool :=
  lexLeCP (a.data.map Char.toNat) (b.data.map Char.toNat)

/-! ## Association-list helpers (model of Python dict / Redis keyspace) -/

/-- Lookup by key (first match). -/
def lookupA {α : Type} : List (String × α) → String → Option α
  | [], _ => none
  | (k1, v1) :: rest, k => if k1 == k then some v1 else lookupA rest k

/-- Insert or replace a binding, keeping the original position on
replace (assignment into a Python dict / Redis SET). -/
def insertA {α : Type} : List (String × α) → String → α → List (String × α)
  | [], k, v => [(k, v)]
  | (k1, v1) :: rest, k, v =>
    if k1 == k then (k, v) :: rest else (k1, v1) :: insertA rest k v

/-- Remove every binding for a key. -/
def removeA {α : Type} (l : List (String × α)) (k : String) : List (String × α) :=
  l.filter (fun kv => kv.1 != k)

/-! ## Path arithmetic (model of Python pathlib for POSIX paths) -/

/-- Model of pathlib Path.parts: for an absolute path the leading "/"
is itself a part, then the nonempty segments. -/
def pathParts (s : String) : List String :=
  let segs := ((chSplit '/' s.data).filter (fun l => l ≠ [])).map (fun l => String.mk l)
  if s.data.head? = some '/' then "/" :: segs else segs

/-- Rebuild the string form of a path from its parts (str of a pathlib
Path); the empty part list renders as ".". -/
def joinParts : List String → String
  | [] => "."
  | ["/"] => "/"
  | "/" :: rest => "/" ++ strIntercalate "/" rest
  | rest => strIntercalate "/" rest

/-- Model of str(Path(s).parent). -/
def parentPath (s : String) : String :=
  joinParts (pathParts s).dropLast

/-- Model of Path(s).name. -/
def pathName (s : String) : String :=
  match (pathParts s).getLast? with
  | some "/" => ""
  | some n => n
  | none => ""

/-- Model of Path(s).suffix: the final dot-segment of the name, empty
when the only dot is leading or trailing. -/
def pathSuffix (s : String) : String :=
  let n := (pathName s).data
  let dotIdxs := (List.range n.length).filter (fun i => n.getD i ' ' = '.')
  match dotIdxs.getLast? with
  | some i => if 0 < i ∧ i + 1 < n.length then String.mk (n.drop i) else ""
  | none => ""

/-- Model of Path(s).stem: the name with the suffix removed. -/
def pathStem (s : String) : String :=
  let n := pathName s
  String.mk (n.data.take (n.data.length - (pathSuffix s).data.length))

/-- Model of Path(p).relative_to(root): defined when the parts of root
are a prefix of the parts of p, returning the remaining segments joined
(ValueError, i.e. none, otherwise). -/
def relativeTo (p root : String) : Option String :=
  let pp := pathParts p
  let rp := pathParts root
  if (rp.map String.data).isPrefixOf (pp.map String.data) then
    let rest := pp.drop rp.length
    if rest.isEmpty then some "." else some (strIntercalate "/" rest)
  else none

/-! ## SHA-256 (hashlib.sha256(...).hexdigest()), on Nat words mod 2^32 -/

/-- Truncate to a 32-bit word. -/
def w32 (n : Nat) : Nat := n % 4294967296

/-- 32-bit right rotation. -/
def rotr32 (x n : Nat) : Nat := w32 ((x >>> n) ||| (x <<< (32 - n)))

def sha256K : List Nat :=
  [1116352408, 1899447441, 3049323471, 3921009573, 961987163, 1508970993,
   2453635748, 2870763221, 3624381080, 310598401, 607225278, 1426881987,
   1925078388, 2162078206, 2614888103, 3248222580, 3835390401, 4022224774,
   264347078, 604807628, 770255983, 1249150122, 1555081692, 1996064986,
   2554220882, 2821834349, 2952996808, 3210313671, 3336571891, 3584528711,
   113926993, 338241895, 666307205, 773529912, 1294757372, 1396182291,
   1695183700, 1986661051, 2177026350, 2456956037, 2730485921, 2820302411,
   3259730800, 3345764771, 3516065817, 3600352804, 4094571909, 275423344,
   430227734, 506948616, 659060556, 883997877, 958139571, 1322822218,
   1537002063, 1747873779, 1955562222, 2024104815, 2227730452, 2361852424,
   2428436474, 2756734187, 3204031479, 3329325298]

def sha256H0 : List Nat :=
  [1779033703, 3144134277, 1013904242, 2773480762, 1359893119, 2600822924,
   528734635, 1541459225]

/-- UTF-8 encoding of a code point as a byte list. -/
def utf8EncodeChar (c : Nat) : List Nat :=
  if c < 0x80 then [c]
  else if c < 0x800 then
    [0xC0 ||| (c >>> 6), 0x80 ||| (c &&& 0x3F)]
  else if c < 0x10000 then
    [0xE0 ||| (c >>> 12), 0x80 ||| ((c >>> 6) &&& 0x3F), 0x80 ||| (c &&& 0x3F)]
  else
    [0xF0 ||| (c >>> 18), 0x80 ||| ((c >>> 12) &&& 0x3F),
     0x80 ||| ((c >>> 6) &&& 0x3F), 0x80 ||| (c &&& 0x3F)]

/-- UTF-8 bytes of a string (str.encode()). -/
def strBytes (s : String) : List Nat :=
  (s.data.map (fun c => utf8EncodeChar c.toNat)).flatten

/-- Big-endian 8-byte encoding. -/
def be64 (n : Nat) : List Nat :=
  [(n >>> 56) &&& 255, (n >>> 48) &&& 255, (n >>> 40) &&& 255, (n >>> 32) &&& 255,
   (n >>> 24) &&& 255, (n >>> 16) &&& 255, (n >>> 8) &&& 255, n &&& 255]

/-- SHA-256 padding: 0x80, zeros to 56 mod 64, then the bit length big-endian. -/
def sha256Pad (m : List Nat) : List Nat :=
  let len := m.length
  let padZeros := (55 + 64 - len % 64) % 64
  m ++ [0x80] ++ List.replicate padZeros 0 ++ be64 (8 * len)

/-- Pack bytes into big-endian 32-bit words. -/
def bytesToWordsBE : List Nat → List Nat
  | b0 :: b1 :: b2 :: b3 :: rest =>
    ((b0 <<< 24) ||| (b1 <<< 16) ||| (b2 <<< 8) ||| b3) :: bytesToWordsBE rest
  | _ => []

/-- Split a word list into 16-word blocks (fuel-driven so that the
definition evaluates by kernel reduction; fuel is the list length). -/
def toBlocksF : Nat → List Nat → List (List Nat)
  | 0, _ => []
  | _, [] => []
  | fuel + 1, ws => ws.take 16 :: toBlocksF fuel (ws.drop 16)

def toBlocks (ws : List Nat) : List (List Nat) := toBlocksF ws.length ws

def smallSigma0 (x : Nat) : Nat := (rotr32 x 7) ^^^ (rotr32 x 18) ^^^ (x >>> 3)
def smallSigma1 (x : Nat) : Nat := (rotr32 x 17) ^^^ (rotr32 x 19) ^^^ (x >>> 10)
def bigSigma0 (x : Nat) : Nat := (rotr32 x 2) ^^^ (rotr32 x 13) ^^^ (rotr32 x 22)
def bigSigma1 (x : Nat) : Nat := (rotr32 x 6) ^^^ (rotr32 x 11) ^^^ (rotr32 x 25)

/-- Extend the 16-word message schedule by the given number of words. -/
def sha256Extend (ws : List Nat) : Nat → List Nat
  | 0 => ws
  | fuel + 1 =>
    let i := ws.length
    let wNew := w32 (ws.getD (i - 16) 0 + smallSigma0 (ws.getD (i - 15) 0) +
      ws.getD (i - 7) 0 + smallSigma1 (ws.getD (i - 2) 0))
    sha256Extend (ws ++ [wNew]) fuel

/-- One SHA-256 round on the 8-word working state. -/
def sha256Round (st : List Nat) (k w : Nat) : List Nat :=
  match st with
  | [a, b, c, d, e, f, g, h] =>
    let ch := (e &&& f) ^^^ ((0xFFFFFFFF ^^^ e) &&& g)
    let t1 := w32 (h + bigSigma1 e + ch + k + w)
    let maj := (a &&& b) ^^^ (a &&& c) ^^^ (b &&& c)
    let t2 := w32 (bigSigma0 a + maj)
    [w32 (t1 + t2), a, b, c, w32 (d + t1), e, f, g]
  | other => other

/-- Compress one 16-word block into the hash state. -/
def sha256Compress (st : List Nat) (block : List Nat) : List Nat :=
  let schedule := sha256Extend block 48
  let final := (sha256K.zip schedule).foldl (fun acc kw => sha256Round acc kw.1 kw.2) st
  (st.zip final).map (fun ab => w32 (ab.1 + ab.2))

/-- SHA-256 state words of a byte message. -/
def sha256Words (m : List Nat) : List Nat :=
  (toBlocks (bytesToWordsBE (sha256Pad m))).foldl sha256Compress sha256H0

/-- Lowercase hex digit. -/
def hexDigit (n : Nat) : Char :=
  if n < 10 then Char.ofNat (48 + n) else Char.ofNat (87 + n)

/-- Lowercase 8-digit hex of a 32-bit word (big-endian digit order). -/
def hexWord32 (n : Nat) : List Char :=
  (List.range 8).map (fun i => hexDigit ((n >>> (28 - 4 * i)) &&& 15))

/-- hashlib.sha256(s.encode()).hexdigest(). -/
def sha256Hex (s : String) : String :=
  String.mk (((sha256Words (strBytes s)).map hexWord32).flatten)

/-! ## MD5 (hashlib.md5(...).hexdigest()), used for thumbnail filenames -/

/-- 32-bit left rotation. -/
def rotl32 (x n : Nat) : Nat := w32 ((x <<< n) ||| (x >>> (32 - n)))

def md5S : List Nat :=
  [7, 12, 17, 22, 7, 12, 17, 22, 7, 12, 17, 22, 7, 12, 17, 22,
   5, 9, 14, 20, 5, 9, 14, 20, 5, 9, 14, 20, 5, 9, 14, 20,
   4, 11, 16, 23, 4, 11, 16, 23, 4, 11, 16, 23, 4, 11, 16, 23,
   6, 10, 15, 21, 6, 10, 15, 21, 6, 10, 15, 21, 6, 10, 15, 21]

def md5K : List Nat :=
  [3614090360, 3905402710, 606105819, 3250441966, 4118548399, 1200080426,
   2821735955, 4249261313, 1770035416, 2336552879, 4294925233, 2304563134,
   1804603682, 4254626195, 2792965006, 1236535329, 4129170786, 3225465664,
   643717713, 3921069994, 3593408605, 38016083, 3634488961, 3889429448,
   568446438, 3275163606, 4107603335, 1163531501, 2850285829, 4243563512,
   1735328473, 2368359562, 4294588738, 2272392833, 1839030562, 4259657740,
   2763975236, 1272893353, 4139469664, 3200236656, 681279174, 3936430074,
   3572445317, 76029189, 3654602809, 3873151461, 530742520, 3299628645,
   4096336452, 1126891415, 2878612391, 4237533241, 1700485571, 2399980690,
   4293915773, 2240044497, 1873313359, 4264355552, 2734768916, 1309151649,
   4149444226, 3174756917, 718787259, 3951481745]

def md5Init : List Nat :=
  [1732584193, 4023233417, 2562383102, 271733878]

/-- Little-endian 8-byte encoding. -/
def le64 (n : Nat) : List Nat :=
  [n &&& 255, (n >>> 8) &&& 255, (n >>> 16) &&& 255, (n >>> 24) &&& 255,
   (n >>> 32) &&& 255, (n >>> 40) &&& 255, (n >>> 48) &&& 255, (n >>> 56) &&& 255]

/-- MD5 padding: 0x80, zeros to 56 mod 64, then the bit length little-endian. -/
def md5Pad (m : List Nat) : List Nat :=
  let len := m.length
  let padZeros := (55 + 64 - len % 64) % 64
  m ++ [0x80] ++ List.replicate padZeros 0 ++ le64 (8 * len)

/-- Pack bytes into little-endian 32-bit words. -/
def bytesToWordsLE : List Nat → List Nat
  | b0 :: b1 :: b2 :: b3 :: rest =>
    (b0 ||| (b1 <<< 8) ||| (b2 <<< 16) ||| (b3 <<< 24)) :: bytesToWordsLE rest
  | _ => []

/-- Round function and message index for MD5 round i. -/
def md5FG (i b c d : Nat) : Nat × Nat :=
  if i < 16 then ((b &&& c) ||| ((0xFFFFFFFF ^^^ b) &&& d), i)
  else if i < 32 then ((d &&& b) ||| ((0xFFFFFFFF ^^^ d) &&& c), (5 * i + 1) % 16)
  else if i < 48 then (b ^^^ c ^^^ d, (3 * i + 5) % 16)
  else (c ^^^ (b ||| (0xFFFFFFFF ^^^ d)), (7 * i) % 16)

/-- One MD5 round on the 4-word state. -/
def md5Round (block : List Nat) (st : List Nat) (i : Nat) : List Nat :=
  match st with
  | [a, b, c, d] =>
    let fg := md5FG i b c d
    let f2 := w32 (fg.1 + a + md5K.getD i 0 + block.getD fg.2 0)
    [d, w32 (b + rotl32 f2 (md5S.getD i 0)), b, c]
  | other => other

/-- Compress one 16-word block into the MD5 state. -/
def md5Compress (st : List Nat) (block : List Nat) : List Nat :=
  let final := (List.range 64).foldl (md5Round block) st
  (st.zip final).map (fun ab => w32 (ab.1 + ab.2))

/-- MD5 state words of a byte message. -/
def md5Words (m : List Nat) : List Nat :=
  (toBlocks (bytesToWordsLE (md5Pad m))).foldl md5Compress md5Init

/-- Little-endian bytes of a 32-bit word. -/
def wordBytesLE (n : Nat) : List Nat :=
  [n &&& 255, (n >>> 8) &&& 255, (n >>> 16) &&& 255, (n >>> 24) &&& 255]

/-- Two lowercase hex digits of a byte. -/
def hexByte (b : Nat) : List Char :=
  [hexDigit ((b >>> 4) &&& 15), hexDigit (b &&& 15)]

/-- hashlib.md5(s.encode()).hexdigest(). -/
def md5Hex (s : String) : String :=
  String.mk ((((md5Words (strBytes s)).map wordBytesLE).flatten.map hexByte).flatten)

/-! ## Watcher data model (services/file-monitor/monitor.py) -/

/-- What Path.stat() and content hashing yield for an existing file:
size in bytes, the isoformat() renderings of st_ctime and st_mtime
(without the Z the watcher appends), and the SHA-256 hex of the
contents.  The filesystem is modelled as String -> Option FileStat;
none means stat() raises / the path does not exist. -/
structure FileStat where
  size : Nat
  ctimeIso : String
  mtimeIso : String
  contentHash : String
deriving DecidableEq

/-- NASFileHandler._get_file_hash: SHA-256 of the file contents, ""
when reading fails (the file is gone). -/
def getFileHash (fs : String → Option FileStat) (p : String) : String :=
  match fs p with
  | some st => st.contentHash
  | none => ""

/-- FileMonitorService / NASFileHandler._parse_mount_paths: split the
MOUNT_PATHS string on commas; the volume name is the last
slash-separated segment of each path. -/
def parseMountPaths (mount_paths : String) : List (String × String) :=
  (strSplitOn mount_paths ',').filterMap (fun mp =>
    let mp := strTrim mp
    if mp = "" then none
    else some ((strSplitOn mp '/').getLastD "", mp))

/-- NASFileHandler._get_standardized_path: first configured volume whose
root the path lies under wins; otherwise the input is returned
unchanged. -/
def getStandardizedPath (mounts : List (String × String)) (p : String) : String :=
  match mounts.findSome? (fun vm =>
    (relativeTo p vm.2).map (fun rel => "/" ++ vm.1 ++ "/" ++ rel)) with
  | some s => s
  | none => p

/-- The JSON message enqueued onto file_processing_queue
(NASFileHandler._create_file_message). -/
structure FileMessage where
  event_type : String
  file_path : String
  container_path : String
  file_name : String
  file_size : Nat
  file_extension : String
  content_hash : String
  created_date : Option String
  modified_date : Option String
  directory_path : String
  directory_depth : Int
  queued_at : String
deriving DecidableEq

def dummyMessage : FileMessage :=
  { event_type := "", file_path := "", container_path := "", file_name := "",
    file_size := 0, file_extension := "", content_hash := "", created_date := none,
    modified_date := none, directory_path := "", directory_depth := 0, queued_at := "" }

/-- NASFileHandler._create_file_message.  The body opens with an
unconditional file_path.stat(); when the file is gone the call raises,
the handler logs and returns {} — modelled as none.  The deleted
branches (file_size 0, empty hash, null dates) apply only when stat()
succeeded. -/
def createFileMessage (fs : String → Option FileStat)
    (mounts : List (String × String)) (file_path : String)
    (event_type : String) (queued_at : String) : Option FileMessage :=
  match fs file_path with
  | none => none
  | some stat =>
    let file_hash := if event_type != "deleted" then getFileHash fs file_path else ""
    let standardized_path := getStandardizedPath mounts file_path
    let standardized_dir := parentPath standardized_path
    some
      { event_type := event_type,
        file_path := standardized_path,
        container_path := file_path,
        file_name := pathName file_path,
        file_size := if event_type != "deleted" then stat.size else 0,
        file_extension := strLower (pathSuffix file_path),
        content_hash := file_hash,
        created_date := if event_type != "deleted" then some (stat.ctimeIso ++ "Z") else none,
        modified_date := if event_type != "deleted" then some (stat.mtimeIso ++ "Z") else none,
        directory_path := standardized_dir,
        directory_depth := (pathParts standardized_path).length - 2,
        queued_at := queued_at }

/-! ## State store (Redis strings, sets and lists; TTLs not modelled —
every claim here is within a single lock lifetime) -/

structure RedisState where
  strings : List (String × String)
  sets : List (String × List String)
  lists : List (String × List FileMessage)
deriving DecidableEq

def emptyRS : RedisState := ⟨[], [], []⟩

def rsGet (rs : RedisState) (k : String) : Option String := lookupA rs.strings k

/-- SET key value. -/
def rsSet (rs : RedisState) (k v : String) : RedisState :=
  { rs with strings := insertA rs.strings k v }

/-- SET key value NX: returns the new state and whether the set won. -/
def rsSetNX (rs : RedisState) (k v : String) : RedisState × Bool :=
  match rsGet rs k with
  | some _ => (rs, false)
  | none => (rsSet rs k v, true)

/-- DEL key (string keys). -/
def rsDelete (rs : RedisState) (k : String) : RedisState :=
  { rs with strings := removeA rs.strings k }

def rsSismember (rs : RedisState) (s m : String) : Bool :=
  ((lookupA rs.sets s).getD []).contains m

def rsSadd (rs : RedisState) (s m : String) : RedisState :=
  let cur := (lookupA rs.sets s).getD []
  { rs with sets := insertA rs.sets s (if cur.contains m then cur else cur ++ [m]) }

def rsSrem (rs : RedisState) (s m : String) : RedisState :=
  let cur := (lookupA rs.sets s).getD []
  { rs with sets := insertA rs.sets s (cur.filter (fun x => x != m)) }

/-- LPUSH: the queue is kept most-recent-first; BRPOP takes from the
end. -/
def rsLpush (rs : RedisState) (q : String) (msg : FileMessage) : RedisState :=
  let cur := (lookupA rs.lists q).getD []
  { rs with lists := insertA rs.lists q (msg :: cur) }

def rsQueue (rs : RedisState) (q : String) : List FileMessage :=
  (lookupA rs.lists q).getD []

/-- float(s) for the stored processed:<path> timestamp, truncated to
whole seconds (digits before the decimal point); parse failure is the
ValueError branch. -/
def parseFloatSeconds (s : String) : Option Nat :=
  match chSplit '.' s.data with
  | intPart :: _ => chToNat intPart
  | [] => none

/-- NASFileHandler._queue_file_for_processing: the five-stage enqueue
discipline.  file_path is the live container path (the Python code
derives every Redis key from str(file_path)).  now is time.time() in
whole seconds.  The global lock is deliberately left in place on every
drop after stage 1 and on success (the source's finally block is a
no-op: the metadata extractor is expected to release it). -/
def queueFileForProcessing (fs : String → Option FileStat)
    (mounts : List (String × String)) (rs : RedisState)
    (file_path : String) (event_type : String) (now : Nat)
    (queued_at : String) : RedisState :=
  let file_str := file_path
  let global_lock_key := "global_processing:" ++ file_str
  match rsSetNX rs global_lock_key "processing" with
  | (rs1, false) => rs1
  | (rs1, true) =>
    if rsSismember rs1 "queued_files" file_str then rs1
    else
      let recentlyProcessed : Bool :=
        if event_type == "created" || event_type == "modified" then
          match rsGet rs1 ("processed:" ++ file_str) with
          | none => false
          | some v =>
            match parseFloatSeconds v with
            | none => false
            | some t => now - t < 7200
        else false
      if recentlyProcessed then rs1
      else
        let step4 : Option RedisState :=
          if (event_type == "created" || event_type == "modified")
              && (fs file_path).isSome then
            let file_hash := getFileHash fs file_path
            if file_hash != "" then
              let hash_key := "file_hash:" ++ file_hash
              match rsGet rs1 hash_key with
              | some existing =>
                if existing != file_str then none
                else some (rsSet rs1 hash_key file_str)
              | none => some (rsSet rs1 hash_key file_str)
            else some rs1
          else some rs1
        match step4 with
        | none => rs1
        | some rs2 =>
          let queue_key := "queue_lock:" ++ file_str
          match rsSetNX rs2 queue_key "queuing" with
          | (rs3, false) => rs3
          | (rs3, true) =>
            match createFileMessage fs mounts file_path event_type queued_at with
            | none => rsDelete rs3 queue_key
            | some message =>
              let rs4 := rsLpush rs3 "file_processing_queue" message
              let rs5 := if event_type != "deleted" then
                  rsSadd rs4 "queued_files" file_str
                else rs4
              rsDelete rs5 queue_key

/-! ## Debounce state (NASFileHandler._schedule_debounced_event) -/

/-- A pending debounced event: the live path, the raw notification's
event type, and its arrival time. -/
structure PendingEvent where
  file_path : String
  event_type : String
  timestamp : Nat
deriving DecidableEq

/-- NASFileHandler._schedule_debounced_event: the per-path entry is
assigned unconditionally — whatever was pending for the path is
replaced by the new event type and timestamp. -/
def scheduleDebouncedEvent (pending : List (String × PendingEvent))
    (file_path : String) (event_type : String) (now : Nat) :
    List (String × PendingEvent) :=
  insertA pending file_path ⟨file_path, event_type, now⟩

/-! ## Metadata extractor (services/metadata-extractor/extractor.py) -/

/-- The fields check_if_update_needed fetches from an existing Solr
document (fl=content_hash,modified_date,file_size); each may be absent. -/
structure StoredDoc where
  content_hash : Option String
  modified_date : Option String
  file_size : Option Nat
deriving DecidableEq

/-- Outcome of the GET {solr}/select query for a file_path: the request
(or JSON decoding) raised, or an HTTP response with its status code and
the matching documents (numFound = docs.length). -/
inductive SolrQueryResult where
  | exn : SolrQueryResult
  | status : Nat → List StoredDoc → SolrQueryResult
deriving DecidableEq

/-- The document assembled by MetadataExtractorService.process_file:
{**message, **metadata} plus the deterministic id and
processing_status, with container_path popped and the date fields
Z-suffixed.  Extracted tool metadata (content_type, file_type, EXIF,
codecs, ...) is carried as an opaque field list — no message field name
collides with an extractor output key. -/
structure SolrDocument where
  id : String
  file_path : String
  file_name : String
  file_size : Nat
  file_extension : String
  content_hash : String
  created_date : Option String
  modified_date : Option String
  directory_path : String
  directory_depth : Int
  queued_at : String
  event_type : String
  metadata : List (String × String)
  processing_status : String
deriving DecidableEq

/-- The date fixup loop: append Z to a present, truthy date that does
not already end in Z. -/
def fixDateZ : Option String → Option String
  | none => none
  | some s => some (if s = "" || strEndsWith s "Z" then s else s ++ "Z")

/-- Document construction inside process_file (merge, deterministic
sha-256 id over the standardized path, status, date fixups). -/
def buildDocument (msg : FileMessage) (meta : List (String × String)) : SolrDocument :=
  { id := sha256Hex msg.file_path,
    file_path := msg.file_path,
    file_name := msg.file_name,
    file_size := msg.file_size,
    file_extension := msg.file_extension,
    content_hash := msg.content_hash,
    created_date := fixDateZ msg.created_date,
    modified_date := fixDateZ msg.modified_date,
    directory_path := msg.directory_path,
    directory_depth := msg.directory_depth,
    queued_at := msg.queued_at,
    event_type := msg.event_type,
    metadata := meta,
    processing_status := "completed" }

/-- MetadataExtractorService.check_if_update_needed, with the Solr
round-trip supplied as a value.  Python truthiness is preserved: an
empty file_path, an empty content_hash, a missing/empty modified_date
and a zero file_size are all falsy and disable the branch they guard. -/
def checkIfUpdateNeeded (result : SolrQueryResult) (doc : SolrDocument) : Bool :=
  let file_path := doc.file_path
  let content_hash := doc.content_hash
  let modified_date := doc.modified_date
  let file_size := doc.file_size
  if file_path = "" then true
  else
    match result with
    | .exn => true
    | .status code docs =>
      if code ≠ 200 then true
      else
        match docs with
        | [] => true
        | _ :: _ :: _ => true
        | [existing] =>
          let condA : Bool :=
            content_hash != "" && existing.content_hash == some content_hash &&
            file_size != 0 && existing.file_size == some file_size
          let condB : Bool :=
            match modified_date, existing.modified_date with
            | some m, some em =>
              m != "" && em != "" && pyStrLe m em &&
              file_size != 0 && existing.file_size == some file_size
            | _, _ => false
          if condA then false
          else if condB then false
          else true

/-- The external collaborators of one extractor worker: the container
filesystem, the metadata tools, and the Solr endpoint. -/
structure ExtractorEnv where
  fsExists : String → Bool
  extract : String → List (String × String)
  solrQuery : String → SolrQueryResult
  solrUpdateOk : String → Bool
  solrDeleteOk : String → Bool

/-- MetadataExtractorService.index_in_solr: skip-if-unchanged, then
POST; a skipped write reports success. -/
def indexInSolr (env : ExtractorEnv) (doc : SolrDocument) : Bool :=
  if !(checkIfUpdateNeeded (env.solrQuery doc.file_path) doc) then true
  else env.solrUpdateOk doc.file_path

/-- Image and video extensions for thumbnail triggering
(trigger_thumbnail_generation; the same literals appear as the
thumbnail generator's IMAGE_FORMATS / VIDEO_FORMATS). -/
def imageFormats : List String :=
  [".jpg", ".jpeg", ".png", ".gif", ".bmp", ".tiff", ".tif", ".webp"]

def videoFormats : List String :=
  [".mp4", ".avi", ".mkv", ".mov", ".wmv", ".flv", ".webm", ".m4v", ".mpg", ".mpeg"]

/-- MetadataExtractorService.trigger_thumbnail_generation. -/
def triggerThumbnailGeneration (rs : RedisState) (msg : FileMessage) : RedisState :=
  let file_extension := strLower msg.file_extension
  if imageFormats.contains file_extension || videoFormats.contains file_extension then
    rsLpush rs "thumbnail_generation_queue" msg
  else rs

/-- Result of MetadataExtractorService.process_file: the boolean the
method returns, the state-store contents afterwards, and the document
it assembled (none on the deleted and vanished-file branches). -/
structure ProcessResult where
  success : Bool
  rs : RedisState
  document : Option SolrDocument
deriving DecidableEq

/-- MetadataExtractorService.process_file.  standardized_path is
message['file_path']; every Redis key here is derived from it.  nowStr
is str(time.time()) at completion. -/
def processFile (env : ExtractorEnv) (rs : RedisState) (msg : FileMessage)
    (nowStr : String) : ProcessResult :=
  let standardized_path := msg.file_path
  let container_path := msg.container_path
  if msg.event_type == "deleted" then
    let success := env.solrDeleteOk standardized_path
    let rs1 := rsDelete rs ("global_processing:" ++ standardized_path)
    ⟨success, rs1, none⟩
  else if !(env.fsExists container_path) then
    ⟨true, rs, none⟩
  else
    let metadata := env.extract container_path
    let document := buildDocument msg metadata
    let success := indexInSolr env document
    if success then
      let rs1 := rsSet rs ("processed:" ++ standardized_path) nowStr
      let rs2 := rsSadd rs1 "processed_files" standardized_path
      let rs3 := rsSrem rs2 "queued_files" standardized_path
      let rs4 := rsDelete rs3 ("global_processing:" ++ standardized_path)
      let rs5 := triggerThumbnailGeneration rs4 msg
      ⟨true, rs5, some document⟩
    else
      let rs1 := rsDelete rs ("global_processing:" ++ standardized_path)
      ⟨false, rs1, some document⟩

/-! ## Thumbnail generator (services/thumbnail-generator/generator.py) -/

/-- THUMBNAIL_SIZES in declaration order. -/
def thumbnailSizes : List (String × Nat × Nat) :=
  [("small", 150, 150), ("medium", 300, 300), ("large", 800, 600)]

/-- ThumbnailGenerator._get_thumbnail_path:
<dir>/<size>/<md5(str(path))>_<stem>.jpg. -/
def getThumbnailPath (thumbnail_dir : String) (file_path : String)
    (size : String) : String :=
  let file_hash := md5Hex file_path
  let filename := file_hash ++ "_" ++ pathStem file_path ++ ".jpg"
  thumbnail_dir ++ "/" ++ size ++ "/" ++ filename

/-- External collaborators of the generator: source-file existence,
output-file existence, and whether the decoder/renderer succeeds on the
source (PIL open for images, ffprobe/ffmpeg for videos). -/
structure ThumbEnv where
  fileExists : String → Bool
  thumbExists : String → Bool
  renderOk : String → Bool

/-- Outcome of a generate call: the size -> path map reported, plus the
trace of sizes that were actually rendered to disk. -/
structure GenResult where
  thumbnails : List (String × String)
  rendered : List String
deriving DecidableEq

/-- ThumbnailGenerator.generate_image_thumbnails: when the decoder
opens the file, every configured size is rendered and saved
unconditionally (the loop has no existence check). -/
def generateImageThumbnails (env : ThumbEnv) (thumbnail_dir : String)
    (file_path : String) : GenResult :=
  if env.renderOk file_path then
    ⟨thumbnailSizes.map (fun sz => (sz.1, getThumbnailPath thumbnail_dir file_path sz.1)),
     thumbnailSizes.map (fun sz => sz.1)⟩
  else ⟨[], []⟩

/-- ThumbnailGenerator.generate_video_thumbnails: when ffprobe/ffmpeg
succeed, every configured size is extracted and written (ffmpeg -y
overwrites). -/
def generateVideoThumbnails (env : ThumbEnv) (thumbnail_dir : String)
    (file_path : String) : GenResult :=
  if env.renderOk file_path then
    ⟨thumbnailSizes.map (fun sz => (sz.1, getThumbnailPath thumbnail_dir file_path sz.1)),
     thumbnailSizes.map (fun sz => sz.1)⟩
  else ⟨[], []⟩

/-- ThumbnailGenerator.generate_thumbnails: collect the sizes whose
output already exists; only when all of them exist are they reported
unchanged — otherwise the type-specific generator reruns every size. -/
def generateThumbnails (env : ThumbEnv) (thumbnail_dir : String)
    (file_path : String) : GenResult :=
  if !(env.fileExists file_path) then ⟨[], []⟩
  else
    let existing := thumbnailSizes.filterMap (fun sz =>
      let tp := getThumbnailPath thumbnail_dir file_path sz.1
      if env.thumbExists tp then some (sz.1, tp) else none)
    let all_exist := thumbnailSizes.all (fun sz =>
      env.thumbExists (getThumbnailPath thumbnail_dir file_path sz.1))
    if all_exist then ⟨existing, []⟩
    else if imageFormats.contains (strLower (pathSuffix file_path)) then
      generateImageThumbnails env thumbnail_dir file_path
    else if videoFormats.contains (strLower (pathSuffix file_path)) then
      generateVideoThumbnails env thumbnail_dir file_path
    else ⟨[], []⟩

/-! ## Concrete scenario: volume photos -> /m/photos, file /m/photos/a/b.jpg -/

/-- MOUNT_PATHS=/m/photos parsed: one volume (photos, /m/photos). -/
def mountsEx : List (String × String) := parseMountPaths "/m/photos"

/-- A filesystem holding exactly /m/photos/a/b.jpg. -/
def fsEx : String → Option FileStat := fun p =>
  if p = "/m/photos/a/b.jpg" then
    some ⟨2048, "2024-01-01T00:00:00", "2024-01-02T00:00:00", "0a1b2c3d"⟩
  else none

/-- The watcher's enqueue of a created event for /m/photos/a/b.jpg
starting from an empty state store. -/
def rs1Ex : RedisState :=
  queueFileForProcessing fsEx mountsEx emptyRS "/m/photos/a/b.jpg" "created"
    1000 "2024-01-03T00:00:00Z"

/-- The message that enqueue left on file_processing_queue. -/
def msgEx : FileMessage := (rsQueue rs1Ex "file_processing_queue").headD dummyMessage

/-- An extractor environment where the file exists, Solr has no
document for the path yet, and every Solr call succeeds. -/
def envEx : ExtractorEnv :=
  { fsExists := fun p => p = "/m/photos/a/b.jpg",
    extract := fun _ => [("content_type", "image/jpeg"), ("file_type", "image")],
    solrQuery := fun _ => .status 200 [],
    solrUpdateOk := fun _ => true,
    solrDeleteOk := fun _ => true }

/-- The extractor run on the dequeued message. -/
def resEx : ProcessResult := processFile envEx rs1Ex msgEx "1234.5"

/-- The state after the leaked container-path lock finally expires by
TTL (modelled as an explicit DEL), 30 minutes later. -/
def rs3Ex : RedisState := rsDelete resEx.rs "global_processing:/m/photos/a/b.jpg"

/-- A second created event for the same file after the lock expiry. -/
def rs4Ex : RedisState :=
  queueFileForProcessing fsEx mountsEx rs3Ex "/m/photos/a/b.jpg" "created"
    3000 "2024-01-04T00:00:00Z"

/-- The document the extractor assembled for msgEx. -/
def docEx8 : SolrDocument := buildDocument msgEx (envEx.extract msgEx.container_path)

/-- A filesystem where the watched file has already been removed. -/
def fsGoneC1 : String → Option FileStat := fun _ => none

/-- The watcher's enqueue of a deleted event for a file that is gone
from disk. -/
def rsC1 : RedisState :=
  queueFileForProcessing fsGoneC1 mountsEx emptyRS "/m/photos/gone.jpg" "deleted"
    1000 "2024-01-03T00:00:00Z"

/-- A dequeued created message whose container file has vanished. -/
def msgGhost : FileMessage :=
  { event_type := "created", file_path := "/photos/ghost.jpg",
    container_path := "/m/photos/ghost.jpg", file_name := "ghost.jpg",
    file_size := 10, file_extension := ".jpg", content_hash := "aa",
    created_date := some "2024-01-01T00:00:00Z",
    modified_date := some "2024-01-01T00:00:00Z",
    directory_path := "/photos", directory_depth := 1,
    queued_at := "2024-01-03T00:00:00Z" }

/-- An extractor environment in which the ghost file does not exist. -/
def envGhost : ExtractorEnv :=
  { fsExists := fun _ => false,
    extract := fun _ => [],
    solrQuery := fun _ => .status 200 [],
    solrUpdateOk := fun _ => true,
    solrDeleteOk := fun _ => true }

/-- A state holding the global lock for the ghost path under both the
logical-path and the container-path key conventions. -/
def rsGhost : RedisState :=
  rsSet (rsSet emptyRS "global_processing:/photos/ghost.jpg" "processing")
    "global_processing:/m/photos/ghost.jpg" "processing"

/-- A stored Solr document for an empty file: the well-known SHA-256 of
the empty string, and file_size 0. -/
def storedC5 : StoredDoc :=
  ⟨some "e3b0c44298fc1c149afbf4c8996fb92427ae41e4649b934ca495991b7852b855",
   some "2024-01-01T00:00:00Z", some 0⟩

/-- The candidate document for the same empty file: identical hash,
identical size 0, identical modified date. -/
def docC5 : SolrDocument :=
  { id := sha256Hex "/photos/empty.txt", file_path := "/photos/empty.txt",
    file_name := "empty.txt", file_size := 0, file_extension := ".txt",
    content_hash := "e3b0c44298fc1c149afbf4c8996fb92427ae41e4649b934ca495991b7852b855",
    created_date := some "2024-01-01T00:00:00Z",
    modified_date := some "2024-01-01T00:00:00Z",
    directory_path := "/photos", directory_depth := 1,
    queued_at := "2024-01-03T00:00:00Z", event_type := "created",
    metadata := [], processing_status := "completed" }

/-- A debounce state with a deleted event pending for the path. -/
def pendingC6 : List (String × PendingEvent) :=
  [("/m/photos/a/b.jpg", ⟨"/m/photos/a/b.jpg", "deleted", 100⟩)]

/-- A generator environment where only the small thumbnail output
already exists on disk. -/
def envC9 : ThumbEnv :=
  { fileExists := fun p => p = "/photos/a/b.jpg",
    thumbExists := fun t => t = getThumbnailPath "/app/thumbnails" "/photos/a/b.jpg" "small",
    renderOk := fun _ => true }

/-- A generator environment where every output already exists. -/
def envC9all : ThumbEnv :=
  { fileExists := fun _ => true, thumbExists := fun _ => true,
    renderOk := fun _ => true }

/-- A stored document matching the C10 witness candidate. -/
def storedC10 : StoredDoc := ⟨some "abc", some "2024-01-01T00:00:00Z", some 5⟩

/-- A candidate document identical to storedC10 in hash and size. -/
def docC10 : SolrDocument :=
  { id := sha256Hex "/photos/x.txt", file_path := "/photos/x.txt",
    file_name := "x.txt", file_size := 5, file_extension := ".txt",
    content_hash := "abc",
    created_date := some "2024-01-01T00:00:00Z",
    modified_date := some "2024-01-01T00:00:00Z",
    directory_path := "/photos", directory_depth := 1,
    queued_at := "2024-01-03T00:00:00Z", event_type := "created",
    metadata := [], processing_status := "completed" }

/-! ## Helper lemmas and known-answer validation -/

theorem lookupA_insertA {α : Type} (l : List (String × α)) (k : String) (v : α) :
    lookupA (insertA l k v) k = some v := by
  induction l with
  | nil => simp [insertA, lookupA]
  | cons hd tl ih =>
    rcases hd with ⟨k1, v1⟩
    by_cases h : k1 = k
    · simp [insertA, lookupA, h]
    · simp [insertA, lookupA, h, ih]

theorem pathParts_example :
    pathParts "/photos/a/b.jpg" = ["/", "photos", "a", "b.jpg"] := by decide

theorem pathSuffix_example : pathSuffix "/m/photos/a/b.jpg" = ".jpg" := by decide

theorem parentPath_example : parentPath "/photos/a/b.jpg" = "/photos/a" := by decide

/-- Known-answer check: SHA-256 of the empty string (the constant the
spec refers to for empty files). -/
theorem sha256Hex_empty :
    sha256Hex "" = "e3b0c44298fc1c149afbf4c8996fb92427ae41e4649b934ca495991b7852b855" := by
  decide

/-- Known-answer check: MD5 of the empty string. -/
theorem md5Hex_empty : md5Hex "" = "d41d8cd98f00b204e9800998ecf8427e" := by decide

/-! ## Claim theorems -/

/-- C1: a delete event that reaches the enqueue step is claimed to
always LPUSH a deleted message (file_size 0, empty hash, null dates)
regardless of whether the file still exists.  Evaluating the code at
the failing input: for a file already gone from disk the unconditional
stat() in _create_file_message fails, the message is empty, nothing is
enqueued — while the acquired global lock is left behind.  (When stat()
still succeeds, the message does carry the claimed field values.) -/
theorem c1_missing_file_delete_never_enqueued :
    createFileMessage fsGoneC1 mountsEx "/m/photos/gone.jpg" "deleted"
        "2024-01-03T00:00:00Z" = none ∧
    rsQueue rsC1 "file_processing_queue" = [] ∧
    rsGet rsC1 "global_processing:/m/photos/gone.jpg" = some "processing" ∧
    (createFileMessage fsEx mountsEx "/m/photos/a/b.jpg" "deleted"
          "2024-01-03T00:00:00Z").map
        (fun m => (m.event_type, m.file_size, m.content_hash, m.created_date,
          m.modified_date)) =
      some ("deleted", 0, "", none, none) := by
  decide

/-- C2: the claim says watcher and extractor use the single key
global_processing:<logical_path>.  Evaluating the code at the failing
input: the watcher acquires the lock under the container path
(/m/photos/a/b.jpg) while the extractor, after successfully processing
the dequeued message, deletes only the logical-path key
(/photos/a/b.jpg) — the acquired lock survives the completed run. -/
theorem c2_lock_acquired_and_released_under_different_keys :
    rsGet rs1Ex "global_processing:/m/photos/a/b.jpg" = some "processing" ∧
    msgEx.file_path = "/photos/a/b.jpg" ∧
    resEx.success = true ∧
    rsGet resEx.rs "global_processing:/m/photos/a/b.jpg" = some "processing" ∧
    "global_processing:/m/photos/a/b.jpg" ≠ "global_processing:" ++ msgEx.file_path := by
  decide

/-- C3: the claim says the element SADDed to queued_files at enqueue is
the element SREMed on successful indexing.  Evaluating the code at the
failing input: the watcher adds the container path, the extractor
removes the logical path, so after a fully successful run the container
path is still a member — and a later event for the same file (after the
leaked lock expires) is dropped by the membership check, leaving the
queue unchanged. -/
theorem c3_queued_files_entry_survives_success :
    rsSismember rs1Ex "queued_files" "/m/photos/a/b.jpg" = true ∧
    resEx.success = true ∧
    rsSismember resEx.rs "queued_files" "/m/photos/a/b.jpg" = true ∧
    rsQueue rs4Ex "file_processing_queue" = rsQueue resEx.rs "file_processing_queue" := by
  decide

/-- C4: the claim says a non-delete event whose container file is gone
is treated as success and the global_processing lock is deleted.
Evaluating the code at the failing input: the branch returns True
without touching the state store — the lock keys (under either naming)
are still present afterwards. -/
theorem c4_vanished_file_success_without_lock_release :
    (processFile envGhost rsGhost msgGhost "1.0").success = true ∧
    (processFile envGhost rsGhost msgGhost "1.0").rs = rsGhost ∧
    rsGet rsGhost "global_processing:/photos/ghost.jpg" = some "processing" ∧
    rsGet rsGhost "global_processing:/m/photos/ghost.jpg" = some "processing" := by
  decide

/-- C5 counterexample: for an empty file (file_size 0) whose stored
document matches in both content_hash and file_size — clause (a) of the
claim — the check still reports that a write is needed: Python
truthiness of file_size 0 disables both skip branches, so the claimed
skip does not apply to size-0 files. -/
theorem c5_counterexample_size_zero_not_skipped :
    storedC5.content_hash = some docC5.content_hash ∧
    storedC5.file_size = some docC5.file_size ∧
    docC5.file_size = 0 ∧
    checkIfUpdateNeeded (SolrQueryResult.status 200 [storedC5]) docC5 = true := by
  decide

/-- C6 counterexample: with a deleted event pending for the path, a
later modified notification replaces it — the entry after scheduling is
the modified event, so deleted does not win in the debounce state. -/
theorem c6_counterexample_deleted_replaced_by_modified :
    lookupA (scheduleDebouncedEvent pendingC6 "/m/photos/a/b.jpg" "modified" 102)
        "/m/photos/a/b.jpg" =
      some ⟨"/m/photos/a/b.jpg", "modified", 102⟩ := by
  decide

/-- C6 (amended): the pending entry is overwritten last-writer-wins on
event_type unconditionally — a pending deleted event is also replaced
by a later created or modified notification for the same path. -/
theorem c6_schedule_overwrites_unconditionally
    (pending : List (String × PendingEvent)) (p et : String) (now : Nat) :
    lookupA (scheduleDebouncedEvent pending p et now) p = some ⟨p, et, now⟩ :=
  lookupA_insertA pending p ⟨p, et, now⟩

/-- C7 counterexample: for volume (photos, /m/photos) and file
/m/photos/a/b.jpg the enqueued event carries directory_depth 2, not the
claimed 1. -/
theorem c7_counterexample_depth_two_not_one :
    (createFileMessage fsEx mountsEx "/m/photos/a/b.jpg" "created"
          "2024-01-03T00:00:00Z").map (fun m => m.directory_depth) = some 2 ∧
    (2 : Int) ≠ 1 := by
  decide

/-- C7 (amended): the enqueued event for /m/photos/a/b.jpg carries
logical path /photos/a/b.jpg and directory_depth parts(logical) - 2,
which is 2 (parts counts the leading "/" as a segment). -/
theorem c7_directory_depth_formula :
    (createFileMessage fsEx mountsEx "/m/photos/a/b.jpg" "created"
          "2024-01-03T00:00:00Z").map
        (fun m => (m.file_path, m.directory_depth)) =
      some ("/photos/a/b.jpg", ((pathParts "/photos/a/b.jpg").length : Int) - 2) ∧
    ((pathParts "/photos/a/b.jpg").length : Int) - 2 = 2 := by
  decide

/-- C9 counterexample: when only the small output exists, the generator
does not skip it — the image branch re-renders every size including
small, refuting "skips rendering every size whose output already
exists". -/
theorem c9_counterexample_existing_size_rerendered :
    envC9.thumbExists (getThumbnailPath "/app/thumbnails" "/photos/a/b.jpg" "small") = true ∧
    (generateThumbnails envC9 "/app/thumbnails" "/photos/a/b.jpg").rendered =
      ["small", "medium", "large"] := by
  decide

/-- C5 (amended): with a single 200-status match, the write is skipped
iff the candidate file_path is nonempty and either (a) the content_hash
is nonempty, equals the stored hash, and the file_size is nonzero and
equals the stored size, or (b) candidate and stored modified_date are
both present and nonempty with candidate ≤ stored, and the file_size is
nonzero and equals the stored size — in particular a file with
file_size 0 is never skipped. -/
theorem c5_skip_iff (existing : StoredDoc) (doc : SolrDocument) :
    checkIfUpdateNeeded (SolrQueryResult.status 200 [existing]) doc = false ↔
      (doc.file_path ≠ "" ∧
        ((doc.content_hash ≠ "" ∧ existing.content_hash = some doc.content_hash ∧
            doc.file_size ≠ 0 ∧ existing.file_size = some doc.file_size) ∨
          (∃ m em, doc.modified_date = some m ∧ m ≠ "" ∧
            existing.modified_date = some em ∧ em ≠ "" ∧ pyStrLe m em = true ∧
            doc.file_size ≠ 0 ∧ existing.file_size = some doc.file_size))) := by
  by_cases hfp : doc.file_path = ""
  · simp [checkIfUpdateNeeded, hfp]
  · rcases hmd : doc.modified_date with _ | m <;>
      rcases hemd : existing.modified_date with _ | em <;>
      simp [checkIfUpdateNeeded, hfp, hmd, hemd] <;> tauto

/-- C8: every document the extractor assembles carries
id = sha256_hex(logical path); re-processing the same logical path
therefore always produces the same document id. -/
theorem c8_document_id_is_sha256_of_logical_path (env : ExtractorEnv)
    (rs : RedisState) (msg : FileMessage) (nowStr : String) (doc : SolrDocument)
    (h : (processFile env rs msg nowStr).document = some doc) :
    doc.id = sha256Hex msg.file_path := by
  unfold processFile at h
  by_cases h1 : msg.event_type == "deleted"
  · simp [h1] at h
  · by_cases h2 : env.fsExists msg.container_path
    · by_cases h3 : indexInSolr env (buildDocument msg (env.extract msg.container_path))
      · simp [h1, h2, h3] at h
        simp [← h, buildDocument]
      · simp [h1, h2, h3] at h
        simp [← h, buildDocument]
    · simp [h1, h2] at h

/-- C8 witness: the document assembled for the concrete created event
carries the SHA-256 of its logical path as id. -/
theorem c8_witness : docEx8.id = sha256Hex msgEx.file_path :=
  c8_document_id_is_sha256_of_logical_path envEx rs1Ex msgEx "1234.5" docEx8 (by decide)

/-- C9 (amended): only when every configured size's output already
exists does the generator skip — it then reports the recorded paths
unchanged and renders nothing, so re-running on complete outputs is a
no-op; if any output is missing, every size is re-rendered. -/
theorem c9_all_outputs_exist_noop (env : ThumbEnv) (dir fp : String)
    (hex : env.fileExists fp = true)
    (hall : ∀ sz ∈ thumbnailSizes, env.thumbExists (getThumbnailPath dir fp sz.1) = true) :
    generateThumbnails env dir fp =
      ⟨thumbnailSizes.map (fun sz => (sz.1, getThumbnailPath dir fp sz.1)), []⟩ := by
  have h1 := hall ("small", 150, 150) (by simp [thumbnailSizes])
  have h2 := hall ("medium", 300, 300) (by simp [thumbnailSizes])
  have h3 := hall ("large", 800, 600) (by simp [thumbnailSizes])
  simp [generateThumbnails, thumbnailSizes, hex, h1, h2, h3]

/-- C9 witness: with every output present, the concrete run reports the
three recorded paths and renders nothing. -/
theorem c9_witness :
    generateThumbnails envC9all "/app/thumbnails" "/photos/a/b.jpg" =
      ⟨thumbnailSizes.map
          (fun sz => (sz.1, getThumbnailPath "/app/thumbnails" "/photos/a/b.jpg" sz.1)),
        []⟩ :=
  c9_all_outputs_exist_noop envC9all "/app/thumbnails" "/photos/a/b.jpg"
    (by decide) (by decide)

/-- C10: the skip-if-unchanged check fails open — whenever it reports
false (skip), the Solr query returned HTTP 200 with exactly one match;
an exception, a non-200 status, zero matches or multiple matches always
yield true (write). -/
theorem c10_check_fails_open (result : SolrQueryResult) (doc : SolrDocument)
    (h : checkIfUpdateNeeded result doc = false) :
    ∃ d, result = SolrQueryResult.status 200 [d] := by
  by_cases hfp : doc.file_path = ""
  · simp [checkIfUpdateNeeded, hfp] at h
  · cases result with
    | exn => simp [checkIfUpdateNeeded, hfp] at h
    | status code docs =>
      by_cases hc : code = 200
      · cases docs with
        | nil => simp [checkIfUpdateNeeded, hfp, hc] at h
        | cons d rest =>
          cases rest with
          | nil => exact ⟨d, by rw [hc]⟩
          | cons d2 r2 => simp [checkIfUpdateNeeded, hfp, hc] at h
      · simp [checkIfUpdateNeeded, hfp, hc] at h

/-- C10 witness: a response with one identical stored document makes
the check report skip, and the conclusion identifies the single match. -/
theorem c10_witness :
    ∃ d, SolrQueryResult.status 200 [storedC10] = SolrQueryResult.status 200 [d] :=
  c10_check_fails_open (SolrQueryResult.status 200 [storedC10]) docC10 (by decide)
